import Mathlib

/-!
A shallow embedding of the quick-open modal of the debugger front end
(`src/components/QuickOpenModal.js`) and of the worker dispatch shim
(the unnamed worker entry file).

State updates (`this.setState`) are modelled by explicit state passing on
`ModalState`; React's merging `setState` is reflected by record updates that
leave the untouched fields alone.  The callbacks the modal receives through
its props (`selectLocation`, `setQuickOpenQuery`, `highlightLineRange`,
`closeQuickOpen`) are modelled as an emitted list of `Effect`s.  JS numbers
that can become `NaN` (the selected index, which flows through `% 0`) are
modelled as `Option Int` with `none` for `NaN`; JS array indexing that can
produce `undefined` is modelled with `Option` results, and a code path that
would throw a `TypeError` (a field access on `undefined`) is modelled by an
`Option`-valued operation returning `none`.

The fuzzy matcher (`fuzzaldrin-plus`) is an external library: the component
fixes only its inputs, so the embedding takes the matcher as a parameter
`fuzzyFilter`.
-/

namespace QuickOpen

/-- The search modes of `QuickOpenType` (reducers/quick-open), as the component
tests them: `"sources"`, `"functions"`, `"variables"`, `"goto"`, `"gotoSource"`,
`"shortcuts"`. -/
inductive QuickOpenType
  | sources
  | functions
  | variables
  | goto
  | gotoSource
  | shortcuts
  deriving DecidableEq, Repr

/-- A position `{ line, column }` inside a source. -/
structure SymbolPos where
  line : Int
  column : Int
  deriving DecidableEq, Repr

/-- A symbol's `{ start, end }` line range; the field `stop` embeds the source
field named `end` (a Lean keyword). -/
structure SymbolRange where
  start : SymbolPos
  stop : SymbolPos
  deriving DecidableEq, Repr

/-- A `QuickOpenResult` display candidate `{ id, value, title, subtitle?,
location?, url }`: `value` is the string the fuzzy matcher scores on (the
`key: "value"` option of `filter`), `url` is what `showTopSources` compares
against open tabs, and `location` is the optional symbol range. -/
structure QuickOpenResult where
  id : String
  value : String
  title : String
  subtitle : Option String
  location : Option SymbolRange
  url : String
  deriving DecidableEq, Repr

/-- `FormattedSymbolDeclarations`: the per-source symbol lists; `vars` embeds
the source field named `variables` (a reserved token). -/
structure FormattedSymbolDeclarations where
  functions : List QuickOpenResult
  vars : List QuickOpenResult
  deriving DecidableEq, Repr

/-- The selected source record; `text` is `none` when the source text is not
loaded (JS `undefined`). -/
structure SourceRecord where
  id : String
  text : Option String
  deriving DecidableEq, Repr

/-- The component props read by the embedded operations. -/
structure Props where
  enabled : Bool
  sources : List QuickOpenResult
  selectedSource : Option SourceRecord
  query : String
  searchType : QuickOpenType
  symbols : FormattedSymbolDeclarations
  tabs : List String
  deriving DecidableEq, Repr

/-- The component state `{ results, selectedIndex }`.  `results` is `none` for
JS `null`; `selectedIndex` is a JS number, with `none` embedding `NaN`. -/
structure ModalState where
  results : Option (List QuickOpenResult)
  selectedIndex : Option Int
  deriving DecidableEq, Repr

/-- The observable callbacks of the modal, as emitted effects. -/
inductive Effect
  | selectLocation (sourceId : String) (line : Option Int) (column : Option Int)
  | setQuickOpenQuery (query : String)
  | highlightLineRange (start : Option Int) (stop : Option Int) (sourceId : String)
  | closeQuickOpen
  deriving DecidableEq, Repr

/-- `GotoLocationType`: `line` is optional because spreading an `undefined`
parse result (`{...location, sourceId}`) leaves `line` absent. -/
structure GotoLocationType where
  sourceId : Option String
  line : Option Int
  column : Option Int
  deriving DecidableEq, Repr

/-- The key names `onKeyDown` distinguishes, plus a catch-all for every other
`e.key` string. -/
inductive Key
  | enter
  | tab
  | arrowUp
  | arrowDown
  | other (s : String)
  deriving DecidableEq, Repr

/-- JS addition on numbers, `none` embedding `NaN`. -/
def jsAdd : Option Int → Option Int → Option Int
  | some a, some b => some (a + b)
  | _, _ => none

/-- JS remainder `%`: truncated division (sign of the dividend), `NaN` when the
modulus is `0` or an operand is `NaN`. -/
def jsMod : Option Int → Option Int → Option Int
  | some a, some b => if b = 0 then none else some (Int.tmod a b)
  | _, _ => none

/-- JS array indexing `xs[i]`: `undefined` (`none`) when the index is out of
range, negative, or `NaN`. -/
def jsIndex {α : Type} (xs : List α) : Option Int → Option α
  | some i => if 0 ≤ i then xs.get? i.toNat else none
  | none => none

/-- JS truthiness of `selectedSource.get("text")`: an absent or empty string is
falsy. -/
def textTruthy : Option String → Bool
  | some t => t != ""
  | none => false

/-- JS `location.column || null`: a `0` column is falsy and becomes `null`. -/
def jsOrNull : Option Int → Option Int
  | some v => if v = 0 then none else some v
  | none => none

/-- `isFunctionQuery`. -/
def isFunctionQuery (p : Props) : Bool :=
  match p.searchType with
  | .functions => true
  | _ => false

/-- `isVariableQuery`. -/
def isVariableQuery (p : Props) : Bool :=
  match p.searchType with
  | .variables => true
  | _ => false

/-- `isSymbolSearch`. -/
def isSymbolSearch (p : Props) : Bool :=
  isFunctionQuery p || isVariableQuery p

/-- `isGotoQuery`. -/
def isGotoQuery (p : Props) : Bool :=
  match p.searchType with
  | .goto => true
  | _ => false

/-- `isGotoSourceQuery`. -/
def isGotoSourceQuery (p : Props) : Bool :=
  match p.searchType with
  | .gotoSource => true
  | _ => false

/-- `isShortcutQuery`. -/
def isShortcutQuery (p : Props) : Bool :=
  match p.searchType with
  | .shortcuts => true
  | _ => false

/-- `isSourcesQuery`. -/
def isSourcesQuery (p : Props) : Bool :=
  match p.searchType with
  | .sources => true
  | _ => false

/-- `isSourceSearch`. -/
def isSourceSearch (p : Props) : Bool :=
  isSourcesQuery p || isGotoSourceQuery p

/-- `getResultCount`: `results && results.length ? results.length : 0`.
For an empty list both the JS expression and `rs.length` give `0`. -/
def getResultCount (st : ModalState) : Int :=
  match st.results with
  | some rs => (rs.length : Int)
  | none => 0

/-- The initial state set by the constructor:
`{ results: null, selectedIndex: 0 }`. -/
def initialState : ModalState :=
  { results := none, selectedIndex := some 0 }

/-- Best-effort decimal parse standing for JS `parseInt(s, 10)`: the longest
digit prefix, `none` when there is none (JS `NaN`). -/
def parseIntDigits (s : String) : Option Int :=
  match (s.takeWhile Char.isDigit).toNat? with
  | some n => some (n : Int)
  | none => none

/-- Modelled from the spec: `parseLineColumn` (utils/quick-open, not under
`src/`) parses the `line[:column]` suffix of a goto query — the segments after
the sigil or base segment — omitting malformed parts, and yields nothing when
no line can be parsed. -/
def parseLineColumn (query : String) : Option GotoLocationType :=
  match query.splitOn ":" with
  | _ :: lineStr :: rest =>
    match parseIntDigits lineStr with
    | some line =>
      some { sourceId := none
             line := some line
             column := match rest with
                       | colStr :: _ => parseIntDigits colStr
                       | [] => none }
    | none => none
  | _ => none

/-- Modelled from the spec: `formatShortcutResults` (utils/quick-open, not
under `src/`) returns the static shortcut list; each shortcut's `id` is its
sigil (`"@"`, `"#"`, `":"`).  Titles are display-only and not fixed by the
spec. -/
def formatShortcutResults : List QuickOpenResult :=
  [ { id := "@", value := "@", title := "functions", subtitle := none,
      location := none, url := "" },
    { id := "#", value := "#", title := "variables", subtitle := none,
      location := none, url := "" },
    { id := ":", value := ":", title := "goto line", subtitle := none,
      location := none, url := "" } ]

/-- Modelled from the spec: the query-to-mode classification performed by the
quick-open reducer (not under `src/`): a leading `'@'` selects functions,
`'#'` variables, `':'` goto, `'?'` shortcuts, anything else sources. -/
def specModeForQuery (query : String) : QuickOpenType :=
  match query.data with
  | c :: _ =>
    if c = '@' then .functions
    else if c = '#' then .variables
    else if c = ':' then .goto
    else if c = '?' then .shortcuts
    else .sources
  | [] => .sources

section ComponentOperations

-- The external fuzzy matcher: `filter(values, query)` delegates to
-- `fuzzaldrin-plus` with `key: "value"` and `maxResults: 1000`; only its
-- inputs are fixed here, so the operations are parameterised by its behaviour.
variable (fuzzyFilter : List QuickOpenResult → String → List QuickOpenResult)

/-- `searchSources`. -/
def searchSources (p : Props) (st : ModalState) (query : String) : ModalState :=
  if query = "" then
    { st with results := some p.sources }
  else if isGotoSourceQuery p then
    let baseQuery := (query.splitOn ":").headD ""
    { st with results := some (fuzzyFilter p.sources baseQuery) }
  else
    { st with results := some (fuzzyFilter p.sources query) }

/-- `searchSymbols`: the list is chosen by `isVariableQuery` (the search
type), a bare `"@"` or `"#"` query returns it unfiltered, any other query is
fuzzy-filtered without its first character. -/
def searchSymbols (p : Props) (st : ModalState) (query : String) : ModalState :=
  let results :=
    if isVariableQuery p then p.symbols.vars else p.symbols.functions
  if query = "@" ∨ query = "#" then
    { st with results := some results }
  else
    { st with results := some (fuzzyFilter results (query.drop 1)) }

/-- `searchShortcuts`. -/
def searchShortcuts (st : ModalState) (query : String) : ModalState :=
  let results := formatShortcutResults
  if query = "?" then
    { st with results := some results }
  else
    { st with results := some (fuzzyFilter results (query.drop 1)) }

/-- `showTopSources`: with open tabs, the sources whose `url` is in the tab
list; otherwise the first 100 sources. -/
def showTopSources (p : Props) (st : ModalState) : ModalState :=
  if p.tabs.length > 0 then
    { st with results := some (p.sources.filter (fun s => p.tabs.contains s.url)) }
  else
    { st with results := some (p.sources.take 100) }

/-- `updateResults`.  Note that it only ever assigns `results`; `selectedIndex`
is left as it was (React's `setState` merges). -/
def updateResults (p : Props) (st : ModalState) (query : String) : ModalState :=
  if isGotoQuery p then st
  else if query = "" then showTopSources p st
  else if isSymbolSearch p then searchSymbols fuzzyFilter p st query
  else if isShortcutQuery p then searchShortcuts fuzzyFilter st query
  else searchSources fuzzyFilter p st query

/-- `componentDidMount`: runs `updateResults` on the constructor state. -/
def componentDidMount (p : Props) : ModalState :=
  updateResults fuzzyFilter p initialState p.query

/-- `componentDidUpdate` (minus the display-only `scrollList` call): results
are recomputed when the modal became enabled or the query changed. -/
def componentDidUpdate (prevProps p : Props) (st : ModalState) : ModalState :=
  let nowEnabled := !prevProps.enabled && p.enabled
  let queryChanged := prevProps.query != p.query
  if nowEnabled || queryChanged then updateResults fuzzyFilter p st p.query
  else st

/-- `onChange`: always forwards the new value to `setQuickOpenQuery`, then
recomputes results unless in a symbol search without loaded source text or in
goto mode. -/
def onChange (p : Props) (st : ModalState) (value : String) :
    ModalState × List Effect :=
  let effects := [Effect.setQuickOpenQuery value]
  let noSource := !textTruthy (p.selectedSource.bind SourceRecord.text)
  if (isSymbolSearch p && noSource) || isGotoQuery p then (st, effects)
  else (updateResults fuzzyFilter p st value, effects)

end ComponentOperations

/-- `setModifier` on a present item: re-seed the query when the id is one of
the sigils. -/
def setModifier (item : QuickOpenResult) : List Effect :=
  if ["@", "#", ":"].contains item.id then
    [Effect.setQuickOpenQuery item.id]
  else []

/-- `setModifier` as called with a possibly-`undefined` item
(`results[selectedIndex]`): `item.id` on `undefined` throws, modelled as
`none`. -/
def setModifierJS : Option QuickOpenResult → Option (List Effect)
  | some item => some (setModifier item)
  | none => none

/-- `gotoLocation`: resolves the source id (an absent or empty `sourceId`
falls back to the selected source), emits `selectLocation` and closes the
modal; a `null` location does nothing. -/
def gotoLocation (p : Props) (location : Option GotoLocationType) : List Effect :=
  let selectedSourceId :=
    match p.selectedSource with
    | some s => s.id
    | none => ""
  match location with
  | none => []
  | some loc =>
    let sourceId :=
      match loc.sourceId with
      | some sid => if sid = "" then selectedSourceId else sid
      | none => selectedSourceId
    [Effect.selectLocation sourceId loc.line (jsOrNull loc.column),
     Effect.closeQuickOpen]

/-- JS `{...location, sourceId: item.id}` where `location` may be
`undefined`. -/
def withSourceId (location : Option GotoLocationType) (sid : String) :
    GotoLocationType :=
  match location with
  | some loc => { loc with sourceId := some sid }
  | none => { sourceId := some sid, line := none, column := none }

/-- `selectResultItem` (also the click handler of the result list). -/
def selectResultItem (p : Props) (item : Option QuickOpenResult) : List Effect :=
  match item with
  | none => []
  | some it =>
    if isShortcutQuery p then
      setModifier it
    else if isGotoSourceQuery p then
      gotoLocation p (some (withSourceId (parseLineColumn p.query) it.id))
    else if isSymbolSearch p then
      gotoLocation p
        (some { sourceId := none
                line := some (match it.location with
                              | some l => l.start.line
                              | none => 0)
                column := none })
    else
      gotoLocation p (some { sourceId := some it.id, line := some 0, column := none })

/-- `onSelectResultItem`: in a symbol search with a selected source, emit the
preview effect; with an `undefined` item the JS code would throw on
`item.location` (`none`). -/
def onSelectResultItem (p : Props) (item : Option QuickOpenResult) :
    Option (List Effect) :=
  if !isSymbolSearch p || p.selectedSource.isNone then some []
  else
    match item with
    | none => none
    | some it =>
      let sid :=
        match p.selectedSource with
        | some s => s.id
        | none => ""
      if isVariableQuery p then
        some [Effect.selectLocation sid
                (some (match it.location with
                       | some l => l.start.line
                       | none => 0))
                none]
      else if isFunctionQuery p then
        some [Effect.highlightLineRange
                (match it.location with
                 | some l => some l.start.line
                 | none => none)
                (match it.location with
                 | some l => some l.stop.line
                 | none => none)
                sid]
      else some []

/-- The traversal direction `e.key === "ArrowUp" ? -1 : 1`. -/
def direction (key : Key) : Int :=
  match key with
  | .arrowUp => -1
  | _ => 1

/-- `traverseResults`: the wraparound arithmetic
`(selectedIndex + direction + resultCount) % resultCount`, then the preview
callback on the newly selected item when `results` is non-null. -/
def traverseResults (p : Props) (st : ModalState) (key : Key) :
    Option (ModalState × List Effect) :=
  let d := direction key
  let resultCount := getResultCount st
  let index := jsAdd st.selectedIndex (some d)
  let nextIndex := jsMod (jsAdd index (some resultCount)) (some resultCount)
  match st.results with
  | none => some ({ st with selectedIndex := nextIndex }, [])
  | some rs =>
    (onSelectResultItem p (jsIndex rs nextIndex)).map
      (fun effects => ({ st with selectedIndex := nextIndex }, effects))

/-- The tail of `onKeyDown` after the Enter branch: Tab closes, arrows
traverse, anything else does nothing. -/
def onKeyDownRest (p : Props) (st : ModalState) (key : Key) :
    Option (ModalState × List Effect) :=
  match key with
  | .tab => some (st, [Effect.closeQuickOpen])
  | .arrowUp => traverseResults p st key
  | .arrowDown => traverseResults p st key
  | _ => some (st, [])

/-- `onKeyDown`. -/
def onKeyDown (p : Props) (st : ModalState) (key : Key) :
    Option (ModalState × List Effect) :=
  if !isGotoQuery p && (!p.enabled || st.results.isNone) then
    some (st, [])
  else if key = Key.enter then
    if isGotoQuery p then
      some (st, gotoLocation p (parseLineColumn p.query))
    else
      match st.results with
      | some rs =>
        if isShortcutQuery p then
          (setModifierJS (jsIndex rs st.selectedIndex)).map
            (fun effects => (st, effects))
        else
          some (st, selectResultItem p (jsIndex rs st.selectedIndex))
      | none => onKeyDownRest p st key
  else onKeyDownRest p st key

/-- What `render` exposes of the state: the count shown by the search input
(`getResultCount`), the items handed to the result list
(`results && results.slice(0, 100)`, before the display-only 1:1 highlight
mapping), and the selected index.  A disabled modal renders nothing. -/
structure RenderView where
  count : Int
  items : Option (List QuickOpenResult)
  selected : Option Int
  deriving DecidableEq, Repr

/-- `render` (display-only parts — localisation, highlighting — elided;
`highlightMatching` maps the items 1:1 and preserves their number). -/
def render (p : Props) (st : ModalState) : Option RenderView :=
  if !p.enabled then none
  else
    some { count := getResultCount st
           items := st.results.map (fun rs => rs.take 100)
           selected := st.selectedIndex }

end QuickOpen

namespace ParserWorker

/-- The external handler functions the worker entry file imports; one
constructor per imported function, named after it. -/
inductive Handler
  | getClosestExpression
  | findOutOfScopeLocations
  | getSymbols
  | getScopes
  | clearSymbols
  | clearScopes
  | clearASTs
  | hasSource
  | setSource
  | clearSources
  | getVariablesInScope
  | getNextStep
  | getEmptyLines
  | hasSyntaxError
  | isReactComponent
  | replaceOriginalVariableName
  deriving DecidableEq, Repr

/-- The name each external handler is imported under. -/
def handlerName : Handler → String
  | .getClosestExpression => "getClosestExpression"
  | .findOutOfScopeLocations => "findOutOfScopeLocations"
  | .getSymbols => "getSymbols"
  | .getScopes => "getScopes"
  | .clearSymbols => "clearSymbols"
  | .clearScopes => "clearScopes"
  | .clearASTs => "clearASTs"
  | .hasSource => "hasSource"
  | .setSource => "setSource"
  | .clearSources => "clearSources"
  | .getVariablesInScope => "getVariablesInScope"
  | .getNextStep => "getNextStep"
  | .getEmptyLines => "getEmptyLines"
  | .hasSyntaxError => "hasSyntaxError"
  | .isReactComponent => "isReactComponent"
  | .replaceOriginalVariableName => "replaceOriginalVariableName"

/-- The dispatch table passed to `workerHandler` in `self.onmessage`: the JS
object shorthand `{ getClosestExpression, ... }` binds each property name to
the identically named imported function, in source order.  The adapter
(`workerHandler`, external) receives it unchanged. -/
def workerTable : List (String × Handler) :=
  [ ("getClosestExpression", .getClosestExpression),
    ("findOutOfScopeLocations", .findOutOfScopeLocations),
    ("getSymbols", .getSymbols),
    ("getScopes", .getScopes),
    ("clearSymbols", .clearSymbols),
    ("clearScopes", .clearScopes),
    ("clearASTs", .clearASTs),
    ("hasSource", .hasSource),
    ("setSource", .setSource),
    ("clearSources", .clearSources),
    ("getVariablesInScope", .getVariablesInScope),
    ("getNextStep", .getNextStep),
    ("getEmptyLines", .getEmptyLines),
    ("hasSyntaxError", .hasSyntaxError),
    ("isReactComponent", .isReactComponent),
    ("replaceOriginalVariableName", .replaceOriginalVariableName) ]

end ParserWorker

namespace QuickOpen

/-! ### Concrete fixtures used by the instantiation lemmas below -/

/-- A concrete source entry. -/
def sA : QuickOpenResult :=
  { id := "sa", value := "a.js", title := "a.js", subtitle := none,
    location := none, url := "ua" }

/-- A second concrete source entry. -/
def sB : QuickOpenResult :=
  { id := "sb", value := "b.js", title := "b.js", subtitle := none,
    location := none, url := "ub" }

/-- A function symbol with a start/end range. -/
def fnA : QuickOpenResult :=
  { id := "fnA", value := "foo", title := "foo", subtitle := none,
    location := some { start := { line := 3, column := 0 },
                       stop := { line := 9, column := 1 } },
    url := "" }

/-- A variable symbol with a location. -/
def vrA : QuickOpenResult :=
  { id := "vrA", value := "v", title := "v", subtitle := none,
    location := some { start := { line := 5, column := 2 },
                       stop := { line := 5, column := 3 } },
    url := "" }

/-- The first entry of the static shortcut list (`id = "@"`). -/
def scAt : QuickOpenResult :=
  { id := "@", value := "@", title := "functions", subtitle := none,
    location := none, url := "" }

/-- A concrete stand-in for the external fuzzy matcher: keep the candidates
whose `value` starts with the query (compared on the character lists). -/
def startsWithFilter : List QuickOpenResult → String → List QuickOpenResult :=
  fun values query =>
    values.filter (fun v => List.isPrefixOf query.data v.value.data)

/-- The identity stand-in for the external fuzzy matcher. -/
def idFilter : List QuickOpenResult → String → List QuickOpenResult :=
  fun values _ => values

/-- Props: sources mode, two sources, empty query, no tabs. -/
def props1 : Props :=
  { enabled := true, sources := [sA, sB], selectedSource := none, query := "",
    searchType := .sources, symbols := { functions := [], vars := [] },
    tabs := [] }

/-- `props1` after the query changed to `"a"`. -/
def props2 : Props := { props1 with query := "a" }

/-- Props in goto-line mode. -/
def propsGoto : Props := { props1 with searchType := .goto, query := ":42:7" }

/-- Props in function-symbol mode with a loaded selected source. -/
def propsFn : Props :=
  { props1 with
    searchType := .functions
    query := "@f"
    selectedSource := some { id := "src1", text := some "txt" }
    symbols := { functions := [fnA], vars := [vrA] } }

/-- Props in variable-symbol mode with a loaded selected source. -/
def propsVar : Props := { propsFn with searchType := .variables, query := "#v" }

/-- Props in shortcuts mode. -/
def propsShort : Props := { props1 with searchType := .shortcuts, query := "?" }

/-- Props with one open tab matching `sA`. -/
def propsTabs : Props := { props1 with tabs := ["ua"] }

/-- State holding the two top sources, index 0. -/
def stTwo : ModalState := { results := some [sA, sB], selectedIndex := some 0 }

/-- State holding the two top sources, index 1. -/
def stTwoAt1 : ModalState := { results := some [sA, sB], selectedIndex := some 1 }

/-- State holding one result but a stale index 1. -/
def stOneAt1 : ModalState := { results := some [sA], selectedIndex := some 1 }

/-- State holding 101 results, index 0. -/
def stBig : ModalState :=
  { results := some (List.replicate 101 sA), selectedIndex := some 0 }

/-- State holding the shortcut list, index 0. -/
def stShort : ModalState :=
  { results := some formatShortcutResults, selectedIndex := some 0 }

/-! ### Helper lemmas -/

theorem getResultCount_some (st : ModalState) (rs : List QuickOpenResult)
    (h : st.results = some rs) : getResultCount st = (rs.length : Int) := by
  simp [getResultCount, h]

theorem jsIndex_isSome {α : Type} (xs : List α) (j : Int) (h0 : 0 ≤ j)
    (hlt : j < (xs.length : Int)) : ∃ a, jsIndex xs (some j) = some a := by
  have hnat : j.toNat < xs.length := (Int.toNat_lt h0).mpr hlt
  exact ⟨xs.get ⟨j.toNat, hnat⟩, by simp [jsIndex, h0, List.get?_eq_get hnat]⟩

theorem onSelectResultItem_isSome (p : Props) (it : QuickOpenResult) :
    ∃ effs, onSelectResultItem p (some it) = some effs := by
  unfold onSelectResultItem
  cases hss : p.selectedSource <;>
    cases hty : p.searchType <;>
      simp [isSymbolSearch, isFunctionQuery, isVariableQuery, hss, hty]

theorem wrap_tmod_eq (i d n : Int) (hd : d = -1 ∨ d = 1) (h0 : 0 ≤ i)
    (hn : 0 < n) : Int.tmod (i + d + n) n = (i + d) % n := by
  have hnum : 0 ≤ i + d + n := by rcases hd with h | h <;> omega
  rw [Int.tmod_eq_emod hnum (le_of_lt hn)]
  have h1 := Int.add_mul_emod_self_left (i + d) n 1
  rw [mul_one] at h1
  exact h1

theorem direction_cases (key : Key)
    (hkey : key = Key.arrowUp ∨ key = Key.arrowDown) :
    direction key = -1 ∨ direction key = 1 := by
  rcases hkey with h | h <;> subst h <;> simp [direction]

theorem traverseResults_arrow (p : Props) (st : ModalState) (key : Key)
    (rs : List QuickOpenResult) (i : Int)
    (hres : st.results = some rs) (hsel : st.selectedIndex = some i)
    (h0 : 0 ≤ i) (hne : rs ≠ [])
    (hkey : key = Key.arrowUp ∨ key = Key.arrowDown) :
    ∃ effs, traverseResults p st key =
      some ({ st with selectedIndex :=
                        some ((i + direction key) % (rs.length : Int)) },
        effs) := by
  have hnpos : (0 : Int) < (rs.length : Int) := by
    exact_mod_cast List.length_pos.mpr hne
  have htm := wrap_tmod_eq i (direction key) (rs.length : Int)
    (direction_cases key hkey) h0 hnpos
  have hb0 : 0 ≤ (i + direction key) % (rs.length : Int) :=
    Int.emod_nonneg _ (ne_of_gt hnpos)
  have hbl : (i + direction key) % (rs.length : Int) < (rs.length : Int) :=
    Int.emod_lt_of_pos _ hnpos
  obtain ⟨item, hitem⟩ := jsIndex_isSome rs _ hb0 hbl
  obtain ⟨effs, heffs⟩ := onSelectResultItem_isSome p item
  refine ⟨effs, ?_⟩
  simp only [traverseResults, getResultCount_some st rs hres, hres, hsel,
    jsAdd, jsMod, if_neg (ne_of_gt hnpos), htm]
  rw [hitem, heffs]
  rfl

theorem onKeyDown_arrow (p : Props) (st : ModalState) (key : Key)
    (hkey : key = Key.arrowUp ∨ key = Key.arrowDown)
    (hguard : (!isGotoQuery p && (!p.enabled || st.results.isNone)) = false) :
    onKeyDown p st key = traverseResults p st key := by
  rcases hkey with h | h <;> subst h <;>
    simp [onKeyDown, hguard, onKeyDownRest]

theorem updateResults_selectedIndex
    (ff : List QuickOpenResult → String → List QuickOpenResult)
    (p : Props) (st : ModalState) (q : String) :
    (updateResults ff p st q).selectedIndex = st.selectedIndex := by
  unfold updateResults searchSources searchSymbols searchShortcuts
    showTopSources
  repeat' split <;> try rfl

/-- C3: for a non-empty result list of count `n` and a valid selected index
`i`, an ArrowDown key event sets the selected index to `(i + 1) % n` and an
ArrowUp key event sets it to `(i - 1 + n) % n`, so ArrowUp at `0` wraps to
`n - 1` and ArrowDown at `n - 1` wraps to `0`. -/
theorem arrow_keys_wrap_modulo (p : Props) (st : ModalState)
    (rs : List QuickOpenResult) (i : Int)
    (hres : st.results = some rs) (hsel : st.selectedIndex = some i)
    (h0 : 0 ≤ i) (hlt : i < (rs.length : Int)) (hen : p.enabled = true) :
    (∃ effs, onKeyDown p st Key.arrowDown =
      some ({ st with selectedIndex :=
                        some ((i + 1) % (rs.length : Int)) }, effs)) ∧
    (∃ effs, onKeyDown p st Key.arrowUp =
      some ({ st with selectedIndex :=
                        some ((i - 1 + rs.length) % (rs.length : Int)) },
        effs)) := by
  have hne : rs ≠ [] := by
    intro h
    subst h
    simp at hlt
    omega
  have hguard : (!isGotoQuery p && (!p.enabled || st.results.isNone)) = false := by
    simp [hres, hen]
  constructor
  · obtain ⟨effs, heq⟩ :=
      traverseResults_arrow p st Key.arrowDown rs i hres hsel h0 hne (Or.inr rfl)
    refine ⟨effs, ?_⟩
    rw [onKeyDown_arrow p st Key.arrowDown (Or.inr rfl) hguard, heq]
    simp [direction]
  · obtain ⟨effs, heq⟩ :=
      traverseResults_arrow p st Key.arrowUp rs i hres hsel h0 hne (Or.inl rfl)
    refine ⟨effs, ?_⟩
    rw [onKeyDown_arrow p st Key.arrowUp (Or.inl rfl) hguard, heq]
    have hmm : (i + direction Key.arrowUp) % (rs.length : Int)
        = (i - 1 + (rs.length : Int)) % (rs.length : Int) := by
      have h1 := Int.add_mul_emod_self_left (i - 1) ((rs.length : Int)) 1
      rw [mul_one] at h1
      rw [h1]
      simp [direction, sub_eq_add_neg]
    rw [hmm]

/-- Witness for `arrow_keys_wrap_modulo`: two results, selected index 0. -/
theorem arrow_keys_wrap_modulo_witness :
    stTwo.results = some [sA, sB] ∧
    ((∃ effs, onKeyDown props1 stTwo Key.arrowDown =
      some ({ stTwo with selectedIndex :=
                           some (((0 : Int) + 1) % ([sA, sB].length : Int)) },
        effs)) ∧
     (∃ effs, onKeyDown props1 stTwo Key.arrowUp =
      some ({ stTwo with selectedIndex :=
                           some (((0 : Int) - 1 + [sA, sB].length) %
                             ([sA, sB].length : Int)) },
        effs))) :=
  ⟨rfl, arrow_keys_wrap_modulo props1 stTwo [sA, sB] 0 rfl rfl (by decide)
    (by decide) rfl⟩

/-- C1 (amended): arrow-key navigation preserves a valid selected index when
results are non-null and non-empty, and with null results outside goto mode it
leaves the state unchanged; but recomputing results (`updateResults`) never
touches `selectedIndex`, so the invariant is not re-established when the
result list changes. -/
theorem navigation_preserves_selected_index (p : Props) (st : ModalState)
    (key : Key) (hkey : key = Key.arrowUp ∨ key = Key.arrowDown) :
    (st.results = none → isGotoQuery p = false →
      onKeyDown p st key = some (st, [])) ∧
    (∀ rs i st2 effs, st.results = some rs → st.selectedIndex = some i →
      0 ≤ i → i < (rs.length : Int) →
      onKeyDown p st key = some (st2, effs) →
      st2.results = some rs ∧
      ∃ j : Int, st2.selectedIndex = some j ∧ 0 ≤ j ∧ j < (rs.length : Int)) ∧
    (∀ ff q, (updateResults ff p st q).selectedIndex = st.selectedIndex) := by
  refine ⟨?_, ?_, ?_⟩
  · intro hres hng
    rcases hkey with h | h <;> subst h <;> simp [onKeyDown, hng, hres]
  · intro rs i st2 effs hres hsel h0 hlt hrun
    have hne : rs ≠ [] := by
      intro h
      subst h
      simp at hlt
      omega
    have hnpos : (0 : Int) < (rs.length : Int) := by
      exact_mod_cast List.length_pos.mpr hne
    by_cases hguard : (!isGotoQuery p && (!p.enabled || st.results.isNone)) = true
    · have hnoop : onKeyDown p st key = some (st, []) := by
        unfold onKeyDown
        rw [if_pos hguard]
      rw [hnoop] at hrun
      have hpair := Option.some.inj hrun
      have hst2 : st = st2 := congrArg Prod.fst hpair
      subst hst2
      exact ⟨hres, ⟨i, hsel, h0, hlt⟩⟩
    · have hguard2 : (!isGotoQuery p && (!p.enabled || st.results.isNone)) = false := by
        cases hb : (!isGotoQuery p && (!p.enabled || st.results.isNone)) with
        | false => rfl
        | true => exact absurd hb hguard
      obtain ⟨effs2, heq⟩ :=
        traverseResults_arrow p st key rs i hres hsel h0 hne hkey
      rw [onKeyDown_arrow p st key hkey hguard2, heq] at hrun
      have hpair := Option.some.inj hrun
      have hst2 : ({ st with selectedIndex :=
                               some ((i + direction key) % (rs.length : Int)) } :
          ModalState) = st2 :=
        congrArg Prod.fst hpair
      subst hst2
      refine ⟨hres, ⟨(i + direction key) % (rs.length : Int), rfl,
        Int.emod_nonneg _ (ne_of_gt hnpos), Int.emod_lt_of_pos _ hnpos⟩⟩
  · intro ff q
    exact updateResults_selectedIndex ff p st q

/-- Witness for `navigation_preserves_selected_index`: the concrete ArrowDown
step from index 0 over two results lands on the valid index 1. -/
theorem navigation_preserves_selected_index_witness :
    stTwoAt1.results = some [sA, sB] ∧
    ∃ j : Int, stTwoAt1.selectedIndex = some j ∧ 0 ≤ j ∧
      j < ([sA, sB].length : Int) :=
  (navigation_preserves_selected_index props1 stTwo Key.arrowDown
    (Or.inr rfl)).2.1 [sA, sB] 0 stTwoAt1 [] rfl rfl (by decide) (by decide)
    (by decide)

/-- C1 counterexample: the reachable run — mount with two top sources,
ArrowDown, then a query change `"" → "a"` that shrinks the results to one —
ends in a state with non-null, non-empty `results = [sA]` but
`selectedIndex = 1`, which is not a valid index. -/
theorem stale_selected_index_counterexample :
    componentDidMount startsWithFilter props1 = stTwo ∧
    onKeyDown props1 stTwo Key.arrowDown = some (stTwoAt1, []) ∧
    componentDidUpdate startsWithFilter props1 props2 stTwoAt1 = stOneAt1 ∧
    stOneAt1.results = some [sA] ∧
    stOneAt1.selectedIndex = some 1 ∧
    ¬ ((1 : Int) < ([sA].length : Int)) := by
  refine ⟨by decide, by decide, by decide, rfl, rfl, by decide⟩

/-- C2 (amended): a query change makes `componentDidUpdate` recompute the
result list via `updateResults`, but `selectedIndex` is left unchanged — it is
not reset to 0. -/
theorem query_change_recomputes_without_reset
    (ff : List QuickOpenResult → String → List QuickOpenResult)
    (prevProps p : Props) (st : ModalState)
    (hq : prevProps.query ≠ p.query) :
    componentDidUpdate ff prevProps p st = updateResults ff p st p.query ∧
    (componentDidUpdate ff prevProps p st).selectedIndex = st.selectedIndex := by
  have hb : (prevProps.query != p.query) = true := by
    simp [bne_iff_ne]
    exact hq
  constructor
  · simp [componentDidUpdate, hb]
  · simp [componentDidUpdate, hb, updateResults_selectedIndex]

/-- Witness for `query_change_recomputes_without_reset` at the concrete query
change `"" → "a"`. -/
theorem query_change_recomputes_without_reset_witness :
    componentDidUpdate startsWithFilter props1 props2 stTwoAt1 =
      updateResults startsWithFilter props2 stTwoAt1 props2.query ∧
    (componentDidUpdate startsWithFilter props1 props2 stTwoAt1).selectedIndex =
      stTwoAt1.selectedIndex :=
  query_change_recomputes_without_reset startsWithFilter props1 props2 stTwoAt1
    (by decide)

/-- C2 counterexample: after the query change `"" → "a"` the results are
recomputed (they change from `[sA, sB]` to `[sA]`) but `selectedIndex` stays
`1` instead of being reset to `0`. -/
theorem no_index_reset_counterexample :
    props1.query ≠ props2.query ∧
    (componentDidUpdate startsWithFilter props1 props2 stTwoAt1).results ≠
      stTwoAt1.results ∧
    (componentDidUpdate startsWithFilter props1 props2 stTwoAt1).selectedIndex =
      some 1 ∧
    some (1 : Int) ≠ some (0 : Int) := by
  refine ⟨by decide, by decide, by decide, by decide⟩

/-- C4: with the search mode matching the bare sigil, `updateResults` on the
query `"@"` sets the result list to the full functions list unfiltered, and on
`"#"` to the full variables list unfiltered — the fuzzy filter (and so its
1000-result cap) is not involved, whatever it computes. -/
theorem bare_sigil_unfiltered
    (ff : List QuickOpenResult → String → List QuickOpenResult)
    (p : Props) (st : ModalState) :
    (p.searchType = specModeForQuery "@" →
      (updateResults ff p st "@").results = some p.symbols.functions) ∧
    (p.searchType = specModeForQuery "#" →
      (updateResults ff p st "#").results = some p.symbols.vars) := by
  constructor
  · intro h
    have h2 : p.searchType = QuickOpenType.functions := h.trans (by decide)
    obtain ⟨en, srcs, sel, q, ty, syms, tabs⟩ := p
    simp only at h2
    subst h2
    simp [updateResults, isGotoQuery, isSymbolSearch, isFunctionQuery,
      isVariableQuery, isShortcutQuery, searchSymbols]
  · intro h
    have h2 : p.searchType = QuickOpenType.variables := h.trans (by decide)
    obtain ⟨en, srcs, sel, q, ty, syms, tabs⟩ := p
    simp only at h2
    subst h2
    simp [updateResults, isGotoQuery, isSymbolSearch, isFunctionQuery,
      isVariableQuery, isShortcutQuery, searchSymbols]

/-- Witness for `bare_sigil_unfiltered`: the one-function list comes back
whole on the bare `"@"` query. -/
theorem bare_sigil_unfiltered_witness :
    propsFn.searchType = specModeForQuery "@" ∧
    (updateResults idFilter propsFn initialState "@").results =
      some propsFn.symbols.functions :=
  ⟨by decide, (bare_sigil_unfiltered idFilter propsFn initialState).1 (by decide)⟩

/-- C5: on an empty query (outside goto mode), with at least one open tab the
result list is the source list filtered to sources whose `url` is in the tab
list, in source order; with no open tabs it is the first 100 sources. -/
theorem empty_query_shows_top_sources
    (ff : List QuickOpenResult → String → List QuickOpenResult)
    (p : Props) (st : ModalState) (hng : isGotoQuery p = false) :
    (p.tabs ≠ [] →
      (updateResults ff p st "").results =
        some (p.sources.filter (fun s => p.tabs.contains s.url))) ∧
    (p.tabs = [] →
      (updateResults ff p st "").results = some (p.sources.take 100)) := by
  constructor
  · intro ht
    have hlen : p.tabs.length > 0 := List.length_pos.mpr ht
    simp [updateResults, hng, showTopSources, hlen]
  · intro ht
    simp [updateResults, hng, showTopSources, ht]

/-- Witness for `empty_query_shows_top_sources`: one open tab keeps exactly
the tabbed source. -/
theorem empty_query_shows_top_sources_witness :
    propsTabs.tabs ≠ [] ∧
    (updateResults idFilter propsTabs initialState "").results =
      some (propsTabs.sources.filter (fun s => propsTabs.tabs.contains s.url)) :=
  ⟨by decide,
    (empty_query_shows_top_sources idFilter propsTabs initialState rfl).1
      (by decide)⟩

/-- C6 (amended): with null results outside goto mode, every key event is a
no-op with no callbacks; in goto mode Enter is always accepted — it parses the
raw query and navigates, independent of `results`; but in goto mode the arrow
keys are not no-ops: the traversal arithmetic runs against a result count of
0 and sets `selectedIndex` to NaN (`none`). -/
theorem null_results_noop_except_goto (p : Props) (st : ModalState) (key : Key) :
    (st.results = none → isGotoQuery p = false →
      onKeyDown p st key = some (st, [])) ∧
    (isGotoQuery p = true →
      onKeyDown p st Key.enter =
        some (st, gotoLocation p (parseLineColumn p.query))) ∧
    (isGotoQuery p = true → st.results = none →
      (key = Key.arrowUp ∨ key = Key.arrowDown) →
      onKeyDown p st key = some ({ st with selectedIndex := none }, [])) := by
  refine ⟨?_, ?_, ?_⟩
  · intro hres hng
    simp [onKeyDown, hng, hres]
  · intro hg
    simp [onKeyDown, hg]
  · intro hg hres hkey
    rcases hkey with h | h <;> subst h <;>
      cases hsel : st.selectedIndex <;>
        simp [onKeyDown, hg, hres, hsel, onKeyDownRest, traverseResults,
          getResultCount, jsAdd, jsMod]

/-- Witness for `null_results_noop_except_goto`: Enter in goto mode navigates
through the parsed raw query even though `results` is null. -/
theorem null_results_noop_except_goto_witness :
    isGotoQuery propsGoto = true ∧
    onKeyDown propsGoto initialState Key.enter =
      some (initialState,
        gotoLocation propsGoto (parseLineColumn propsGoto.query)) :=
  ⟨rfl, (null_results_noop_except_goto propsGoto initialState Key.enter).2.1 rfl⟩

/-- C6 counterexample: in goto mode with null results, ArrowDown does not
leave the state unchanged — it sets `selectedIndex` to NaN (`none`). -/
theorem goto_arrow_mutates_state_counterexample :
    isGotoQuery propsGoto = true ∧
    initialState.results = none ∧
    onKeyDown propsGoto initialState Key.arrowDown =
      some ({ results := none, selectedIndex := none }, []) ∧
    ({ results := none, selectedIndex := none } : ModalState) ≠ initialState := by
  refine ⟨rfl, rfl, by decide, by decide⟩

/-- C7 (amended): the symbol preview side effects are emitted by the arrow-key
traversal callback (`onSelectResultItem`, invoked from `traverseResults`), not
on query change: `onChange` always emits exactly `setQuickOpenQuery`; the
traversal callback emits `highlightLineRange` over the symbol's start–end
lines in function mode and `selectLocation` at its start line in variable
mode, and does nothing when no source is selected. -/
theorem preview_effects_on_traversal
    (ff : List QuickOpenResult → String → List QuickOpenResult)
    (p : Props) (st : ModalState) (v : String)
    (item : QuickOpenResult) (src : SourceRecord) (l : SymbolRange) :
    ((onChange ff p st v).2 = [Effect.setQuickOpenQuery v]) ∧
    (p.selectedSource = none → onSelectResultItem p (some item) = some []) ∧
    (p.searchType = QuickOpenType.functions → p.selectedSource = some src →
      item.location = some l →
      onSelectResultItem p (some item) =
        some [Effect.highlightLineRange (some l.start.line) (some l.stop.line)
          src.id]) ∧
    (p.searchType = QuickOpenType.variables → p.selectedSource = some src →
      item.location = some l →
      onSelectResultItem p (some item) =
        some [Effect.selectLocation src.id (some l.start.line) none]) := by
  refine ⟨?_, ?_, ?_, ?_⟩
  · simp [onChange, apply_ite Prod.snd]
  · intro hsel
    simp [onSelectResultItem, hsel]
  · intro hty hsel hloc
    simp [onSelectResultItem, isSymbolSearch, isFunctionQuery, isVariableQuery,
      hty, hsel, hloc]
  · intro hty hsel hloc
    simp [onSelectResultItem, isSymbolSearch, isFunctionQuery, isVariableQuery,
      hty, hsel, hloc]

/-- Witness for `preview_effects_on_traversal`: the function symbol `fnA`
highlights its 3–9 line range on traversal. -/
theorem preview_effects_on_traversal_witness :
    onSelectResultItem propsFn (some fnA) =
      some [Effect.highlightLineRange (some 3) (some 9) "src1"] :=
  (preview_effects_on_traversal idFilter propsFn stTwo "@f" fnA
      { id := "src1", text := some "txt" }
      { start := { line := 3, column := 0 },
        stop := { line := 9, column := 1 } }).2.2.1 rfl rfl rfl

/-- C7 counterexample: in function-symbol mode with a loaded selected source,
a query change (`onChange`) emits only `setQuickOpenQuery` — no
`highlightLineRange` and no `selectLocation` are emitted. -/
theorem query_change_emits_no_preview_counterexample :
    propsFn.searchType = QuickOpenType.functions ∧
    propsFn.selectedSource ≠ none ∧
    (onChange idFilter propsFn stTwo "@f").2 =
      [Effect.setQuickOpenQuery "@f"] := by
  refine ⟨rfl, by decide, by decide⟩

/-- C8: in shortcuts mode, selecting a result whose id is one of the sigils
`"@"`, `"#"`, `":"` — by Enter on the selected index or by clicking the item —
emits exactly `setQuickOpenQuery` with that sigil: the state is unchanged and
neither `closeQuickOpen` nor `selectLocation` is emitted. -/
theorem shortcut_select_reseeds_query (p : Props) (st : ModalState)
    (rs : List QuickOpenResult) (item : QuickOpenResult)
    (hmode : p.searchType = QuickOpenType.shortcuts) (hen : p.enabled = true)
    (hres : st.results = some rs)
    (hitem : jsIndex rs st.selectedIndex = some item)
    (hid : ["@", "#", ":"].contains item.id = true) :
    onKeyDown p st Key.enter = some (st, [Effect.setQuickOpenQuery item.id]) ∧
    selectResultItem p (some item) = [Effect.setQuickOpenQuery item.id] := by
  have hid2 : item.id = "@" ∨ item.id = "#" ∨ item.id = ":" := by
    simpa using hid
  constructor
  · simp only [onKeyDown, hres, hen, isGotoQuery, isShortcutQuery, hmode,
      hitem, setModifierJS, setModifier, hid]
    simp [hmode, hitem, setModifier, hid]
    try tauto
  · simp [selectResultItem, isShortcutQuery, hmode, setModifier, hid]
    try tauto

/-- Witness for `shortcut_select_reseeds_query`: Enter at index 0 on the
shortcut list re-seeds the query to `"@"`. -/
theorem shortcut_select_reseeds_query_witness :
    onKeyDown propsShort stShort Key.enter =
      some (stShort, [Effect.setQuickOpenQuery scAt.id]) ∧
    selectResultItem propsShort (some scAt) =
      [Effect.setQuickOpenQuery scAt.id] :=
  shortcut_select_reseeds_query propsShort stShort formatShortcutResults scAt
    rfl rfl rfl (by decide) (by decide)

/-- C10: the rendered result list is capped at the first 100 items while the
reported count and the arrow-key navigation range use the full list length:
with more than 100 results, ArrowUp from index 0 selects index `length - 1`,
which lies outside the displayed range. -/
theorem render_caps_display_at_100 (p : Props) (st : ModalState)
    (rs : List QuickOpenResult)
    (hen : p.enabled = true) (hres : st.results = some rs) :
    render p st = some { count := (rs.length : Int),
                         items := some (rs.take 100),
                         selected := st.selectedIndex } ∧
    (rs.take 100).length = min 100 rs.length ∧
    getResultCount st = (rs.length : Int) ∧
    (100 < rs.length → st.selectedIndex = some 0 →
      ∃ effs, onKeyDown p st Key.arrowUp =
        some ({ st with selectedIndex := some ((rs.length : Int) - 1) }, effs) ∧
        ¬ ((rs.length : Int) - 1 < 100)) := by
  refine ⟨?_, ?_, ?_, ?_⟩
  · simp [render, hen, hres, getResultCount]
  · simp [List.length_take]
  · simp [getResultCount, hres]
  · intro hlen hsel
    have hcast : (100 : Int) < (rs.length : Int) := by exact_mod_cast hlen
    have hne : rs ≠ [] := by
      intro h
      subst h
      simp at hlen
    have hguard : (!isGotoQuery p && (!p.enabled || st.results.isNone)) = false := by
      simp [hres, hen]
    obtain ⟨effs, heq⟩ :=
      traverseResults_arrow p st Key.arrowUp rs 0 hres hsel (le_refl 0) hne
        (Or.inl rfl)
    refine ⟨effs, ?_, by omega⟩
    rw [onKeyDown_arrow p st Key.arrowUp (Or.inl rfl) hguard, heq]
    have h1 := Int.add_mul_emod_self_left (-1 : Int) ((rs.length : Int)) 1
    rw [mul_one] at h1
    have hrw : (-1 + (rs.length : Int)) = (rs.length : Int) - 1 := by ring
    rw [hrw] at h1
    have h2 : ((rs.length : Int) - 1) % (rs.length : Int) =
        (rs.length : Int) - 1 :=
      Int.emod_eq_of_lt (by omega) (by omega)
    have h3 : (-1 : Int) % (rs.length : Int) = (rs.length : Int) - 1 := by
      rw [← h1, h2]
    simp [direction, h3]

/-- Witness for `render_caps_display_at_100`: with 101 identical results,
ArrowUp from index 0 selects index 100, beyond the 100 displayed items. -/
theorem render_caps_display_at_100_witness :
    ∃ effs, onKeyDown props1 stBig Key.arrowUp =
      some ({ stBig with selectedIndex :=
                           some (((List.replicate 101 sA).length : Int) - 1) },
        effs) ∧
      ¬ (((List.replicate 101 sA).length : Int) - 1 < 100) :=
  (render_caps_display_at_100 props1 stBig (List.replicate 101 sA) rfl
    rfl).2.2.2 (by simp) rfl

end QuickOpen

namespace ParserWorker

/-- C9: the worker dispatch table registers exactly the sixteen operation
names — no more, no fewer, no duplicates — and maps each name to the
identically named external handler; the shim passes this table to the generic
adapter unchanged, with no logic of its own. -/
theorem worker_table_registers_exactly_sixteen :
    workerTable.map Prod.fst =
      ["getClosestExpression", "findOutOfScopeLocations", "getSymbols",
       "getScopes", "clearSymbols", "clearScopes", "clearASTs", "hasSource",
       "setSource", "clearSources", "getVariablesInScope", "getNextStep",
       "getEmptyLines", "hasSyntaxError", "isReactComponent",
       "replaceOriginalVariableName"] ∧
    workerTable.length = 16 ∧
    (workerTable.map Prod.fst).Nodup ∧
    (workerTable.map Prod.snd).Nodup ∧
    workerTable.map (fun e => handlerName e.2) = workerTable.map Prod.fst :=
  ⟨rfl, rfl, by decide, by decide, rfl⟩

end ParserWorker
